import Mathlib

/-!
# Verification of the ArcadeLauncher simulation and leaderboard logic

A shallow embedding of the per-frame simulation, collision resolution and
score-store logic of the ArcadeLauncher repository (snake, pong, breakout,
space shooter mini-games plus the flat-file leaderboard), together with
proofs and refutations of the testable properties of the specification.

Conventions of the embedding:
* `pygame.Rect` becomes `Rect` with integer coordinates; pygame stores all
  rectangle attributes as machine integers and truncates assigned floats
  toward zero (`pyTrunc`).
* Python floats are idealised as rationals `ℚ`; every numeric literal at
  issue (`0.05`, `1.1`, `0.3`, `3.5`, …) is exactly representable.
* calls to `random.uniform(-0.3, 0.3)` are passed in as explicit noise
  parameters.
* the leaderboard JSON object becomes an association list from game title
  to score list; a JSON dump/load round trip is the identity on it, and the
  on-disk file is `Option FileContent` (`none` = missing file).
-/

namespace Arcade

/-- A pygame rectangle: integer position `(x, y)` and size `(w, h)`. -/
structure Rect where
  x : ℤ
  y : ℤ
  w : ℤ
  h : ℤ
deriving DecidableEq, Repr

def Rect.left (r : Rect) : ℤ := r.x

def Rect.right (r : Rect) : ℤ := r.x + r.w

def Rect.top (r : Rect) : ℤ := r.y

def Rect.bottom (r : Rect) : ℤ := r.y + r.h

/-- Source `Rect.centerx`: pygame computes `x + w / 2` with integer division. -/
def Rect.centerx (r : Rect) : ℤ := r.x + r.w / 2

/-- Source `Rect.centery`: pygame computes `y + h / 2` with integer division. -/
def Rect.centery (r : Rect) : ℤ := r.y + r.h / 2

/-- Source `pygame.Rect.colliderect`: strict axis-aligned overlap test. -/
def collideRect (a b : Rect) : Bool :=
  a.left < b.right && a.right > b.left && a.top < b.bottom && a.bottom > b.top

/-- Assigning a float to a pygame rect attribute truncates toward zero
(C integer conversion): truncating division of numerator by denominator. -/
def pyTrunc (q : ℚ) : ℤ := q.num.tdiv q.den

/-- Python `min` on two floats. -/
def pyMin (a b : ℚ) : ℚ := if a ≤ b then a else b

/-- Python `max` on two floats. -/
def pyMax (a b : ℚ) : ℚ := if b ≤ a then a else b

/-! ## Score store (`leaderboard.py`) -/

/-- The parsed `leaderboard.json` object: game title ↦ list of scores. -/
abbrev Store := List (String × List ℤ)

/-- Modelled from the spec: `GAME_TITLES` lives in the `constants` module,
which is absent from the repository snapshot; the spec names the five hosted
mini-games (snake, pong, breakout, flappy-bird-clone, space shooter). -/
def GAME_TITLES : List String :=
  ["Snake", "Pong", "Breakout", "Flappy Bird", "Space Shooter"]

/-- Python dict lookup `leaderboard.get(name)` on the association list. -/
def lookupStore (store : Store) (t : String) : Option (List ℤ) :=
  (store.find? (fun p => p.1 = t)).map (fun p => p.2)

/-- Python dict assignment `leaderboard[name] = v` for a key already present. -/
def setStore (store : Store) (t : String) (v : List ℤ) : Store :=
  store.map (fun p => if p.1 = t then (t, v) else p)

/-- Python `sorted(xs, reverse=True)`: sort descending.  On bare integers the
stable descending sort is the unique `(· ≥ ·)`-sorted permutation. -/
def pySortDesc (xs : List ℤ) : List ℤ :=
  List.insertionSort (· ≥ ·) xs

/-- Source `{game: [] for game in GAME_TITLES}`: the reinitialised empty mapping. -/
def emptyLeaderboard : Store := GAME_TITLES.map (fun g => (g, []))

/-- Source `add_score` from `leaderboard.py`: append the score to the list for that title,
sort descending and keep the top 5; unknown titles get a fresh entry. -/
def add_score (t : String) (s : ℤ) (store : Store) : Store :=
  match lookupStore store t with
  | some scores => setStore store t ((pySortDesc (scores ++ [s])).take 5)
  | none => store ++ [(t, [s])]

/-- Source `get_high_score` from `leaderboard.py`: `max(scores)` if any, else 0. -/
def get_high_score (t : String) (store : Store) : ℤ :=
  match lookupStore store t with
  | some (x :: xs) => xs.foldl max x
  | _ => 0

/-- Contents of the `leaderboard.json` file: either a parsable store or
unparsable bytes (`json.JSONDecodeError` on load). -/
inductive FileContent where
  | valid (store : Store)
  | invalid
deriving DecidableEq

/-- Source `init_leaderboard` from `leaderboard.py`: writes the empty mapping only
when the file does not exist; an existing file is left untouched. -/
def init_leaderboard : Option FileContent → Option FileContent
  | none => some (.valid emptyLeaderboard)
  | some c => some c

/-- Source `load_leaderboard` from `leaderboard.py`: returns the parsed store, or —
on a missing or corrupt file — calls `init_leaderboard` and returns the
default empty mapping.  Result: (value returned to caller, new file state). -/
def load_leaderboard : Option FileContent → Store × Option FileContent
  | some (.valid s) => (s, some (.valid s))
  | some .invalid => (emptyLeaderboard, init_leaderboard (some .invalid))
  | none => (emptyLeaderboard, init_leaderboard none)

/-! ## Game-over score recording (session controllers) -/

/-- Breakout game over (`run_breakout_game`): `if score > high_score:
add_score("Breakout", score)`, where `high_score` was read at session start. -/
def breakoutGameOverStore (score high : ℤ) (store : Store) : Store :=
  if score > high then add_score "Breakout" score store else store

/-- Shooter game over (`run_shooter_game`): `if score > high_score:
add_score("Space Shooter", score)`. -/
def shooterGameOverStore (score high : ℤ) (store : Store) : Store :=
  if score > high then add_score "Space Shooter" score store else store

/-- Snake game over (`run_snake_game`): `add_score("Snake", snake.score)`,
with no high-score guard. -/
def snakeGameOverStore (score : ℤ) (store : Store) : Store :=
  add_score "Snake" score store

/-! ## Breakout (`games/breakout/breakout_game.py`) -/

/-- A breakout brick: rectangle, point value, remaining hit points
(`strength`); the colour bookkeeping of the source is rendering-only. -/
structure Brick where
  rect : Rect
  points : ℤ
  strength : ℤ
deriving DecidableEq, Repr

/-- Source `Brick.hit`: decrement `strength`, report `(mutated brick, strength <= 0,
self.points)`.  The point value is returned on every hit, broken or not. -/
def Brick.hit (b : Brick) : Brick × Bool × ℤ :=
  let b' : Brick := { b with strength := b.strength - 1 }
  (b', decide (b'.strength ≤ 0), b.points)

/-- The breakout ball: pygame rect, float velocity, per-tick fractional
speed-up (`speed_increase = 0.05`, used as a percentage), speed cap, and the
attached-to-paddle flag. -/
structure Ball where
  rect : Rect
  dx : ℚ
  dy : ℚ
  speed_increase : ℚ
  max_speed : ℚ
  attached : Bool
deriving DecidableEq, Repr

/-- Result of one breakout `Ball.update` brick scan: post-bounce velocity,
surviving bricks, score delta, and the list of bricks removed this tick. -/
structure BrickScan where
  dx : ℚ
  dy : ℚ
  bricks : List Brick
  scoreChange : ℤ
  broken : List Brick
deriving DecidableEq, Repr

/-- The brick-collision loop of `Ball.update`: scan the bricks in order; on
the first overlap, register the hit (removing the brick when broken), bounce
along the axis of smaller entry depth, and `break` out of the loop. -/
def brickScan (ballRect : Rect) (prevX prevY : ℤ) (dx dy : ℚ) :
    List Brick → BrickScan
  | [] => ⟨dx, dy, [], 0, []⟩
  | b :: rest =>
    if collideRect ballRect b.rect then
      let hitRes := b.hit
      let dxEntry : ℤ :=
        if dx > 0 then b.rect.left - (prevX + ballRect.w) else prevX - b.rect.right
      let dyEntry : ℤ :=
        if dy > 0 then b.rect.top - (prevY + ballRect.h) else prevY - b.rect.bottom
      let newVel : ℚ × ℚ := if |dxEntry| < |dyEntry| then (-dx, dy) else (dx, -dy)
      if hitRes.2.1 then ⟨newVel.1, newVel.2, rest, hitRes.2.2, [hitRes.1]⟩
      else ⟨newVel.1, newVel.2, hitRes.1 :: rest, 0, []⟩
    else
      let r := brickScan ballRect prevX prevY dx dy rest
      ⟨r.dx, r.dy, b :: r.bricks, r.scoreChange, r.broken⟩

/-- The paddle-collision response inside `Ball.update`: horizontal velocity
proportional to the strike offset from the paddle centre (`relative_x * 7`),
vertical velocity forced upward with a floor of 3. -/
def paddleBounce (ballRect paddleRect : Rect) (dy0 : ℚ) : ℚ × ℚ :=
  let relativeX : ℚ :=
    ((ballRect.centerx : ℚ) - (paddleRect.centerx : ℚ)) / ((paddleRect.w : ℚ) / 2)
  let dx1 := relativeX * 7
  let dy1 := -|dy0|
  let dy2 := if |dy1| < 3 then (-3 : ℚ) else dy1
  (dx1, dy2)

/-- Result of one full breakout `Ball.update` tick. -/
structure BallUpdate where
  ball : Ball
  bricks : List Brick
  scoreChange : ℤ
  broken : List Brick
deriving DecidableEq, Repr

/-- Breakout `Ball.update` for playfield `screenW × screenH`: attached balls
track the paddle; otherwise move, bounce off walls (with the
`random.uniform(-0.3, 0.3)` nudges of the source passed in as `noiseY`/`noiseX`), bounce
off the paddle, clamp both velocity components to `max_speed`, process at
most one brick collision, and finally grow the velocity by
`1 + speed_increase / 100`. -/
def Ball.update (screenW : ℤ) (ball : Ball) (paddle : Rect)
    (bricks : List Brick) (noiseY noiseX : ℚ) : BallUpdate :=
  if ball.attached then
    let r' : Rect := { ball.rect with
      x := paddle.centerx - ball.rect.w / 2
      y := paddle.top - ball.rect.h }
    ⟨{ ball with rect := r' }, bricks, 0, []⟩
  else
    let prevX := ball.rect.x
    let prevY := ball.rect.y
    let r1 : Rect := { ball.rect with
      x := pyTrunc ((ball.rect.x : ℚ) + ball.dx)
      y := pyTrunc ((ball.rect.y : ℚ) + ball.dy) }
    let v1 : ℚ × ℚ :=
      if r1.left ≤ 0 || r1.right ≥ screenW then (-ball.dx, ball.dy + noiseY)
      else (ball.dx, ball.dy)
    let v2 : ℚ × ℚ :=
      if r1.top ≤ 0 then (v1.1 + noiseX, -v1.2) else v1
    let v3 : ℚ × ℚ :=
      if collideRect r1 paddle && decide (v2.2 > 0) then paddleBounce r1 paddle v2.2
      else v2
    let dx4 := pyMax (pyMin v3.1 ball.max_speed) (-ball.max_speed)
    let dy4 := pyMax (pyMin v3.2 ball.max_speed) (-ball.max_speed)
    let scan := brickScan r1 prevX prevY dx4 dy4 bricks
    let g := 1 + ball.speed_increase / 100
    ⟨{ ball with rect := r1, dx := scan.dx * g, dy := scan.dy * g },
      scan.bricks, scan.scoreChange, scan.broken⟩

/-- Breakout ball-lost handling in `run_breakout_game`: decrement lives and
enter game over exactly when they are exhausted. -/
structure LifeState where
  lives : ℤ
  game_active : Bool
  game_over : Bool
deriving DecidableEq, Repr

/-- Source `run_breakout_game`, ball below the screen: `lives -= 1`; on
`lives <= 0` the session flips to the game-over state. -/
def ballLostStep (st : LifeState) : LifeState :=
  let l := st.lives - 1
  if l ≤ 0 then { lives := l, game_active := false, game_over := true }
  else { st with lives := l }

/-- Breakout power-up kinds. -/
inductive PowerupType where
  | expand
  | shrink
  | extraLife
  | multiBall
deriving DecidableEq, Repr

/-- Power-up application in `run_breakout_game` on paddle catch, acting on
`(paddle width, lives)`: expand/shrink clamp the width to `[40, 200]`,
the extra-life power-up does `lives += 1`, multi-ball is a stub. -/
def applyPowerup : PowerupType → ℤ × ℤ → ℤ × ℤ
  | .expand, (w, l) => (min (w + 20) 200, l)
  | .shrink, (w, l) => (max (w - 20) 40, l)
  | .extraLife, (w, l) => (w, l + 1)
  | .multiBall, (w, l) => (w, l)

/-! ## Space shooter (`games/shooter/shooter_game.py`) -/

/-- Shooter enemy movement patterns. -/
inductive EnemyType where
  | basic
  | zigzag
  | fast
deriving DecidableEq, Repr

/-- A shooter enemy: rect, float fall speed, movement type, zigzag state and
point value (10 / 15 / 20 by type at spawn). -/
structure Enemy where
  rect : Rect
  speed : ℚ
  etype : EnemyType
  zigzag_direction : ℤ
  zigzag_counter : ℤ
  points : ℤ
deriving DecidableEq, Repr

/-- Source `Enemy.update`: fall by `speed` (truncated into the integer rect),
zigzag enemies sway every 20 ticks and reflect at the screen edges; returns
the updated enemy and whether it left the bottom of the screen. -/
def Enemy.update (screenW screenH : ℤ) (e : Enemy) : Enemy × Bool :=
  let r1 : Rect := { e.rect with y := pyTrunc ((e.rect.y : ℚ) + e.speed) }
  match e.etype with
  | .zigzag =>
    let c := e.zigzag_counter + 1
    let dc : ℤ × ℤ := if c ≥ 20 then (-e.zigzag_direction, 0) else (e.zigzag_direction, c)
    let r2 : Rect := { r1 with x := r1.x + dc.1 * 2 }
    let d' : ℤ := if r2.left ≤ 0 then 1 else if r2.right ≥ screenW then -1 else dc.1
    (⟨r2, e.speed, e.etype, d', dc.2, e.points⟩, decide (r2.top > screenH))
  | _ => ({ e with rect := r1 }, decide (r1.top > screenH))

/-- The enemy-update loop of `run_shooter_game`: each enemy that leaves the
screen is removed and costs one point of score, but only while the score is
positive. -/
def enemyEscapePhase (screenW screenH : ℤ) :
    List Enemy → ℤ → List Enemy × ℤ
  | [], s => ([], s)
  | e :: rest, s =>
    let u := e.update screenW screenH
    if u.2 then enemyEscapePhase screenW screenH rest (if s > 0 then s - 1 else s)
    else
      let r := enemyEscapePhase screenW screenH rest s
      (u.1 :: r.1, r.2)

/-- The inner loop of the shooter bullet–enemy collision scan, for one
bullet: every enemy the bullet overlaps is scored and removed; the bullet
itself is removed after the first such enemy, but the loop keeps running
(the source has no `break`).  Returns (surviving enemies, score delta,
whether the bullet was removed). -/
def bulletEnemyScan (bullet : Rect) : List Enemy → List Enemy × ℤ × Bool
  | [] => ([], 0, false)
  | e :: rest =>
    let r := bulletEnemyScan bullet rest
    if collideRect bullet e.rect then (r.1, e.points + r.2.1, true)
    else (e :: r.1, r.2.1, r.2.2)

/-- The full bullet–enemy collision phase of `run_shooter_game`: each bullet
in turn scans the current enemy list.  Returns (surviving bullets, surviving
enemies, score delta). -/
def bulletsPhase : List Rect → List Enemy → List Rect × List Enemy × ℤ
  | [], es => ([], es, 0)
  | b :: bs, es =>
    let scan := bulletEnemyScan b es
    let rest := bulletsPhase bs scan.1
    (if scan.2.2 then rest.1 else b :: rest.1, rest.2.1, scan.2.1 + rest.2.2)

/-- Shooter player state relevant to lives. -/
structure ShooterPlayer where
  lives : ℤ
  invulnerable : Bool
deriving DecidableEq, Repr

/-- Source `Player.get_hit`: lose one life and become invulnerable, unless already
invulnerable; returns whether the hit registered. -/
def ShooterPlayer.get_hit (p : ShooterPlayer) : ShooterPlayer × Bool :=
  if p.invulnerable then (p, false)
  else ({ lives := p.lives - 1, invulnerable := true }, true)

/-- Wave completion bonus in `run_shooter_game`: `score += wave * 50`
(after `wave += 1`). -/
def waveBonus (wave score : ℤ) : ℤ := score + wave * 50

/-! ## Snake (`games/snake/snake_game.py`) -/

/-- Source `Snake.change_direction`: adopt the requested direction unless it is the
exact negation of the current one (no 180-degree turns). -/
def change_direction (cur d : ℤ × ℤ) : ℤ × ℤ :=
  if d ≠ (-cur.1, -cur.2) then d else cur

/-- Snake growth state: pending length and score. -/
structure SnakeState where
  grow_to : ℤ
  score : ℤ
deriving DecidableEq, Repr

/-- Source `Snake.grow`: lengthen by one and add 10 points. -/
def SnakeState.grow (s : SnakeState) : SnakeState :=
  { grow_to := s.grow_to + 1, score := s.score + 10 }

/-! ## Pong (`games/pong/pong_game.py`) -/

/-- The pong ball: rect and float velocity. -/
structure PongBall where
  rect : Rect
  dx : ℚ
  dy : ℚ
deriving DecidableEq, Repr

/-- Source `Ball.handle_paddle_collision` from pong: flip the horizontal velocity,
re-aim the vertical velocity by the strike offset (scaled by the
`BALL_SPEED_Y` constant, passed in since the `constants` module is absent
from the snapshot), then speed up by 10% — but only when the current
`|dx|` is below the declared cap of 15. -/
def handle_paddle_collision (ball : PongBall) (paddle : Rect)
    (ballSpeedY : ℚ) : PongBall :=
  let dx1 := -ball.dx
  let relativeY : ℚ :=
    ((paddle.centery : ℚ) - (ball.rect.centery : ℚ)) / ((paddle.h : ℚ) / 2)
  let dy1 := -relativeY * ballSpeedY
  let dx2 := if |dx1| < 15 then dx1 * (11 / 10) else dx1
  { ball with dx := dx2, dy := dy1 }

/-! ## Helper lemmas -/

theorem pySortDesc_sorted (xs : List ℤ) : List.Sorted (· ≥ ·) (pySortDesc xs) :=
  List.sorted_insertionSort _ xs

theorem pySortDesc_perm (xs : List ℤ) : List.Perm (pySortDesc xs) xs :=
  List.perm_insertionSort _ xs

/-- Rewriting the value stored under a present key is seen by lookup. -/
theorem lookupStore_setStore (store : Store) (t : String) (v prev : List ℤ)
    (h : lookupStore store t = some prev) :
    lookupStore (setStore store t v) t = some v := by
  induction store with
  | nil => simp [lookupStore] at h
  | cons p rest ih =>
    by_cases hp : p.1 = t
    · simp [lookupStore, setStore, List.find?_cons_of_pos, hp]
    · have h2 : lookupStore rest t = some prev := by
        simpa [lookupStore, List.find?_cons_of_neg, hp] using h
      simpa [lookupStore, setStore, List.find?_cons_of_neg, hp] using ih h2

/-- The breakout brick loop removes at most one brick per tick. -/
theorem brickScan_broken_le_one (ballRect : Rect) (pX pY : ℤ) (dx dy : ℚ) :
    ∀ bricks, (brickScan ballRect pX pY dx dy bricks).broken.length ≤ 1 := by
  intro bricks
  induction bricks with
  | nil => simp [brickScan]
  | cons b rest ih =>
    simp only [brickScan]
    split
    · split <;> simp
    · simpa using ih

/-- The breakout brick loop can only flip the sign of either velocity
component, never change its magnitude. -/
theorem brickScan_abs (ballRect : Rect) (pX pY : ℤ) (dx dy : ℚ) :
    ∀ bricks, |(brickScan ballRect pX pY dx dy bricks).dx| = |dx| ∧
      |(brickScan ballRect pX pY dx dy bricks).dy| = |dy| := by
  intro bricks
  induction bricks with
  | nil => simp [brickScan]
  | cons b rest ih =>
    simp only [brickScan]
    split_ifs <;> simp_all [abs_neg]

/-- The shooter bullet scan removes exactly the overlapped enemies. -/
theorem bulletEnemyScan_filter (bullet : Rect) :
    ∀ es : List Enemy,
      (bulletEnemyScan bullet es).1 =
        es.filter (fun e => !(collideRect bullet e.rect)) ∧
      (bulletEnemyScan bullet es).2.1 =
        ((es.filter (fun e => collideRect bullet e.rect)).map
          (fun e => e.points)).sum := by
  intro es
  induction es with
  | nil => simp [bulletEnemyScan]
  | cons e rest ih =>
    simp only [bulletEnemyScan]
    by_cases hc : collideRect bullet e.rect
    · simp [hc, ih.1, ih.2, List.filter_cons]
    · simp [hc, ih.1, ih.2, List.filter_cons]

/-- The enemy-escape loop never drives the score negative. -/
theorem enemyEscapePhase_nonneg (screenW screenH : ℤ) :
    ∀ (es : List Enemy) (s : ℤ), 0 ≤ s →
      0 ≤ (enemyEscapePhase screenW screenH es s).2 := by
  intro es
  induction es with
  | nil => intro s hs; simpa [enemyEscapePhase] using hs
  | cons e rest ih =>
    intro s hs
    simp only [enemyEscapePhase]
    split
    · apply ih
      split <;> omega
    · exact ih s hs

/-- The enemy-escape loop never increases the score. -/
theorem enemyEscapePhase_le (screenW screenH : ℤ) :
    ∀ (es : List Enemy) (s : ℤ),
      (enemyEscapePhase screenW screenH es s).2 ≤ s := by
  intro es
  induction es with
  | nil => intro s; simp [enemyEscapePhase]
  | cons e rest ih =>
    intro s
    simp only [enemyEscapePhase]
    split
    · refine le_trans (ih _) ?_
      split <;> omega
    · exact ih s

/-- Bullet hits only ever add non-negative point values. -/
theorem bulletEnemyScan_nonneg (bullet : Rect) :
    ∀ es : List Enemy, (∀ e ∈ es, 0 ≤ e.points) →
      0 ≤ (bulletEnemyScan bullet es).2.1 := by
  intro es
  induction es with
  | nil => intro _; simp [bulletEnemyScan]
  | cons e rest ih =>
    intro h
    have he : 0 ≤ e.points := h e (by simp)
    have hr := ih (fun x hx => h x (by simp [hx]))
    simp only [bulletEnemyScan]
    split
    · show 0 ≤ e.points + (bulletEnemyScan bullet rest).2.1
      omega
    · exact hr

/-! ## Claims -/

/-- C4: adding a score for a known game title and reloading the store yields,
for that title, a list sorted in descending order with at most 5 entries,
containing the new score whenever fewer than 5 previously stored scores
exceed it (i.e. whenever it ranks in the top 5 among the old scores plus the
new one). -/
theorem add_score_roundtrip (t : String) (s : ℤ) (prev : List ℤ) (store : Store)
    (hknown : lookupStore store t = some prev) :
    lookupStore (add_score t s store) t = some ((pySortDesc (prev ++ [s])).take 5) ∧
    List.Sorted (· ≥ ·) ((pySortDesc (prev ++ [s])).take 5) ∧
    ((pySortDesc (prev ++ [s])).take 5).length ≤ 5 ∧
    (prev.countP (fun x => s < x) < 5 → s ∈ (pySortDesc (prev ++ [s])).take 5) := by
  refine ⟨?_, ?_, ?_, ?_⟩
  · unfold add_score
    rw [hknown]
    exact lookupStore_setStore store t _ prev hknown
  · exact (pySortDesc_sorted _).sublist (List.take_sublist 5 _)
  · simp [List.length_take]
  · intro hcount
    set L := pySortDesc (prev ++ [s]) with hL
    by_contra hmem
    have hsL : s ∈ L := (List.mem_insertionSort _).mpr (by simp)
    have hsplit : L.take 5 ++ L.drop 5 = L := List.take_append_drop 5 L
    have hsdrop : s ∈ L.drop 5 := by
      rcases List.mem_append.mp (hsplit ▸ hsL) with h1 | h1
      · exact absurd h1 hmem
      · exact h1
    have hpair : ∀ x ∈ L.take 5, ∀ y ∈ L.drop 5, x ≥ y := by
      have hsorted := pySortDesc_sorted (prev ++ [s])
      rw [← hL, ← hsplit] at hsorted
      exact fun x hx y hy => (List.pairwise_append.mp hsorted).2.2 x hx y hy
    have hgt : ∀ x ∈ L.take 5, s < x := by
      intro x hx
      rcases lt_or_eq_of_le (hpair x hx s hsdrop) with h1 | h1
      · exact h1
      · exact absurd (h1 ▸ hx) hmem
    have hlen : (L.take 5).length = 5 := by
      have hlong : 5 < L.length := by
        by_contra hc
        push_neg at hc
        have hnil : L.drop 5 = [] := List.drop_eq_nil_of_le hc
        rw [hnil] at hsdrop
        exact absurd hsdrop (List.not_mem_nil s)
      simp [List.length_take]
      omega
    have hcount5 : (L.take 5).countP (fun x => s < x) = 5 := by
      rw [List.countP_eq_length.mpr, hlen]
      intro x hx
      exact decide_eq_true (hgt x hx)
    have hcountL : L.countP (fun x => s < x) = (prev ++ [s]).countP (fun x => s < x) :=
      (pySortDesc_perm (prev ++ [s])).countP_eq _
    have hcountL5 : 5 ≤ L.countP (fun x => s < x) := by
      calc 5 = (L.take 5).countP (fun x => s < x) := hcount5.symm
      _ ≤ (L.take 5).countP (fun x => s < x) + (L.drop 5).countP (fun x => s < x) :=
          Nat.le_add_right _ _
      _ = L.countP (fun x => s < x) := by rw [← List.countP_append, hsplit]
    have hsum : (prev ++ [s]).countP (fun x => s < x) = prev.countP (fun x => s < x) := by
      rw [List.countP_append]
      simp
    omega

/-- C4 witness: adding 7 for "Snake" to the fresh store stores exactly
`[7]`, which contains the new score. -/
theorem add_score_roundtrip_witness :
    lookupStore (add_score "Snake" 7 emptyLeaderboard) "Snake" =
      some ((pySortDesc ([] ++ [7])).take 5) ∧
    (7 : ℤ) ∈ (pySortDesc (([] : List ℤ) ++ [7])).take 5 :=
  ⟨(add_score_roundtrip "Snake" 7 [] emptyLeaderboard (by decide)).1,
   (add_score_roundtrip "Snake" 7 [] emptyLeaderboard (by decide)).2.2.2 (by decide)⟩

/-- C5 counterexample: a file with unparsable content is NOT reinitialised:
`load_leaderboard` leaves the corrupt file on disk, refuting the claim that
the file is rewritten to the empty mapping. -/
theorem corrupt_file_untouched_counterexample :
    (load_leaderboard (some .invalid)).2 = some .invalid ∧
    (load_leaderboard (some .invalid)).2 ≠ some (.valid emptyLeaderboard) := by
  constructor
  · rfl
  · intro h
    have h2 : FileContent.invalid = FileContent.valid emptyLeaderboard :=
      Option.some.inj h
    cases h2

/-- C5 (amended): on a missing or unparsable score file, loading raises no
error and returns the mapping with an empty score list for every known game
title; the file itself is rewritten to that empty mapping only when it was
missing — an existing corrupt file is left unchanged. -/
theorem load_leaderboard_recovery_amended :
    (∀ t ∈ GAME_TITLES, lookupStore emptyLeaderboard t = some []) ∧
    (load_leaderboard none).1 = emptyLeaderboard ∧
    (load_leaderboard none).2 = some (.valid emptyLeaderboard) ∧
    (load_leaderboard (some .invalid)).1 = emptyLeaderboard ∧
    (load_leaderboard (some .invalid)).2 = some .invalid := by
  refine ⟨?_, rfl, rfl, rfl, rfl⟩
  decide

/-- C5 witness: the default mapping gives "Breakout" an empty score list. -/
theorem load_leaderboard_recovery_witness :
    lookupStore emptyLeaderboard "Breakout" = some [] :=
  load_leaderboard_recovery_amended.1 "Breakout" (by decide)

/-- C10: `change_direction` adopts the requested direction unless it is the
exact negation of the current one, in which case the direction is unchanged;
hence no single input can reverse a (non-degenerate) direction by 180
degrees. -/
theorem change_direction_no_reverse (cur d : ℤ × ℤ) :
    (d ≠ (-cur.1, -cur.2) → change_direction cur d = d) ∧
    (d = (-cur.1, -cur.2) → change_direction cur d = cur) ∧
    (cur ≠ (0, 0) → change_direction cur d ≠ (-cur.1, -cur.2)) := by
  refine ⟨fun h => by simp [change_direction, h], fun h => by simp [change_direction, h], ?_⟩
  intro hcur
  by_cases hd : d = (-cur.1, -cur.2)
  · have hres : change_direction cur d = cur := by simp [change_direction, hd]
    rw [hres]
    intro hc
    apply hcur
    have h1 : cur.1 = -cur.1 := congrArg Prod.fst hc
    have h2 : cur.2 = -cur.2 := congrArg Prod.snd hc
    have hx : cur.1 = 0 := by omega
    have hy : cur.2 = 0 := by omega
    exact Prod.ext hx hy
  · simp [change_direction, hd]

/-- C10 witness: with current direction right, the input up is adopted and
the input left (the exact reversal) is ignored. -/
theorem change_direction_no_reverse_witness :
    change_direction (1, 0) (0, 1) = (0, 1) ∧
    change_direction (1, 0) (-1, 0) = (1, 0) :=
  ⟨(change_direction_no_reverse (1, 0) (0, 1)).1 (by decide),
   (change_direction_no_reverse (1, 0) (-1, 0)).2.1 (by decide)⟩

/-- C2 counterexample: the snake session records its final score on game over
even when it does not beat the stored high score — with a fresh store and a
final score of 0 (which does not exceed the high score of 0), the Score
Store changes. -/
theorem snake_unconditional_record_counterexample :
    get_high_score "Snake" emptyLeaderboard = 0 ∧
    ¬ (0 : ℤ) > get_high_score "Snake" emptyLeaderboard ∧
    snakeGameOverStore 0 emptyLeaderboard ≠ emptyLeaderboard := by
  refine ⟨rfl, by decide, ?_⟩
  intro h
  have h2 : lookupStore (snakeGameOverStore 0 emptyLeaderboard) "Snake" =
      lookupStore emptyLeaderboard "Snake" := by rw [h]
  revert h2
  decide

/-- C2 (amended): on the transition to GameOver, breakout and the shooter
record the final score exactly when it beats the high score read at session
start and leave the Score Store untouched otherwise; the snake session calls
`add_score` unconditionally, appending its score (sorted, truncated to the
top 5) whether or not it beats the stored high score. -/
theorem game_over_recording_amended (s h : ℤ) (store : Store) (prev : List ℤ)
    (hsnake : lookupStore store "Snake" = some prev) :
    (¬ s > h → breakoutGameOverStore s h store = store) ∧
    (s > h → breakoutGameOverStore s h store = add_score "Breakout" s store) ∧
    (¬ s > h → shooterGameOverStore s h store = store) ∧
    (s > h → shooterGameOverStore s h store = add_score "Space Shooter" s store) ∧
    lookupStore (snakeGameOverStore s store) "Snake" =
      some ((pySortDesc (prev ++ [s])).take 5) := by
  refine ⟨fun hn => if_neg hn, fun hy => if_pos hy,
    fun hn => if_neg hn, fun hy => if_pos hy, ?_⟩
  unfold snakeGameOverStore add_score
  rw [hsnake]
  exact lookupStore_setStore store "Snake" _ prev hsnake

/-- C2 witness: a score of 5 that does not beat a high score of 10 leaves
the store unchanged in breakout, while snake still records it. -/
theorem game_over_recording_witness :
    breakoutGameOverStore 5 10 emptyLeaderboard = emptyLeaderboard ∧
    lookupStore (snakeGameOverStore 5 emptyLeaderboard) "Snake" =
      some ((pySortDesc ([] ++ [5])).take 5) :=
  ⟨(game_over_recording_amended 5 10 emptyLeaderboard [] (by decide)).1 (by decide),
   (game_over_recording_amended 5 10 emptyLeaderboard [] (by decide)).2.2.2.2⟩

/-- C6 counterexample: catching the extra-life power-up in breakout raises
the lives counter from 3 to 4, refuting the claim that the lives counter
only ever decreases during a session. -/
theorem extra_life_counterexample :
    (applyPowerup .extraLife (40, 3)).2 = 4 ∧
    ¬ (applyPowerup .extraLife (40, 3)).2 ≤ 3 := by
  decide

/-- C6 (amended): during a session the lives counter changes only by one of
three steps: it drops by one when breakout loses the ball, it drops by one
when the shooter player is hit while vulnerable, and it rises by one on the
breakout extra-life power-up; when a ball-loss decrement brings lives to
zero (or below) the session transitions to the terminal game-over state, and
otherwise it does not. -/
theorem lives_transitions_amended (st : LifeState) (p : ShooterPlayer)
    (t : PowerupType) (w l : ℤ)
    (hgo : st.game_over = false) (hinv : p.invulnerable = false) :
    (ballLostStep st).lives = st.lives - 1 ∧
    ((ballLostStep st).game_over = true ↔ st.lives - 1 ≤ 0) ∧
    p.get_hit.1.lives = p.lives - 1 ∧
    ((applyPowerup t (w, l)).2 = l ∨
      ((applyPowerup t (w, l)).2 = l + 1 ∧ t = .extraLife)) := by
  refine ⟨?_, ?_, ?_, ?_⟩
  · by_cases hl : st.lives - 1 ≤ 0 <;> simp [ballLostStep, hl]
  · by_cases hl : st.lives - 1 ≤ 0 <;> simp [ballLostStep, hl, hgo]
  · simp [ShooterPlayer.get_hit, hinv]
  · cases t <;> simp [applyPowerup]

/-- C6 witness: losing breakout's last ball takes lives from 1 to 0 and
flips the session into game over; a vulnerable shooter player hit at 3 lives
drops to 2. -/
theorem lives_transitions_witness :
    (ballLostStep ⟨1, true, false⟩).lives = 0 ∧
    ((ballLostStep ⟨1, true, false⟩).game_over = true ↔ (1 : ℤ) - 1 ≤ 0) ∧
    (ShooterPlayer.get_hit ⟨3, false⟩).1.lives = 2 :=
  ⟨(lives_transitions_amended ⟨1, true, false⟩ ⟨3, false⟩ .expand 40 3 rfl rfl).1,
   (lives_transitions_amended ⟨1, true, false⟩ ⟨3, false⟩ .expand 40 3 rfl rfl).2.1,
   (lives_transitions_amended ⟨1, true, false⟩ ⟨3, false⟩ .expand 40 3 rfl rfl).2.2.1⟩

/-- C7: a downward-moving ball striking a width-40 paddle centred at x=100
with its own centre at x=110 (offset +10, half of the half-width) bounces
with horizontal velocity exactly 0.5 times the maximum horizontal speed 7,
and vertical velocity pointing upward with magnitude at least the floor 3. -/
theorem paddle_bounce_scenario (ballR padR : Rect) (dy0 : ℚ)
    (hw : padR.w = 40) (hc : padR.centerx = 100) (hb : ballR.centerx = 110)
    (hdy : 0 < dy0) (hcol : collideRect ballR padR = true) :
    (paddleBounce ballR padR dy0).1 = (1 / 2) * 7 ∧
    (paddleBounce ballR padR dy0).2 < 0 ∧
    3 ≤ |(paddleBounce ballR padR dy0).2| := by
  unfold paddleBounce
  rw [hw, hc, hb]
  norm_num
  constructor
  · rw [abs_of_pos hdy]
    split
    · norm_num
    · linarith
  · rw [abs_of_pos hdy]
    split
    · norm_num
    · rename_i hge
      rw [abs_of_nonpos (by linarith)]
      linarith

/-- C7 witness: the scenario at concrete rectangles, with incoming vertical
speed 5. -/
theorem paddle_bounce_scenario_witness :
    (paddleBounce ⟨105, 552, 10, 10⟩ ⟨80, 560, 40, 15⟩ 5).1 = (1 / 2) * 7 ∧
    (paddleBounce ⟨105, 552, 10, 10⟩ ⟨80, 560, 40, 15⟩ 5).2 < 0 ∧
    3 ≤ |(paddleBounce ⟨105, 552, 10, 10⟩ ⟨80, 560, 40, 15⟩ 5).2| :=
  paddle_bounce_scenario ⟨105, 552, 10, 10⟩ ⟨80, 560, 40, 15⟩ 5
    (by decide) (by decide) (by decide) (by norm_num) (by decide)

/-- C8: a brick with hit-points 2 struck by the ball yields no score change
and stays (with one hit point left) on the first strike; the second strike
yields its declared point value and removes it from the live brick set. -/
theorem brick_two_hit_scenario (ballR : Rect) (pX pY : ℤ) (dx dy : ℚ)
    (b : Brick) (hs : b.strength = 2) (hcol : collideRect ballR b.rect = true) :
    (brickScan ballR pX pY dx dy [b]).scoreChange = 0 ∧
    (brickScan ballR pX pY dx dy [b]).broken = [] ∧
    (brickScan ballR pX pY dx dy [b]).bricks = [{ b with strength := 1 }] ∧
    (brickScan ballR pX pY dx dy
      (brickScan ballR pX pY dx dy [b]).bricks).scoreChange = b.points ∧
    (brickScan ballR pX pY dx dy
      (brickScan ballR pX pY dx dy [b]).bricks).bricks = [] ∧
    (brickScan ballR pX pY dx dy
      (brickScan ballR pX pY dx dy [b]).bricks).broken =
      [{ b with strength := 0 }] := by
  obtain ⟨br, bp, bs⟩ := b
  have hbs : bs = 2 := hs
  subst hbs
  have hhit1 : (Brick.mk br bp 2).hit = (⟨br, bp, 1⟩, false, bp) := by
    simp [Brick.hit]
  have hhit2 : (Brick.mk br bp 1).hit = (⟨br, bp, 0⟩, true, bp) := by
    simp [Brick.hit]
  have hfirst3 : (brickScan ballR pX pY dx dy [⟨br, bp, 2⟩]).bricks = [⟨br, bp, 1⟩] := by
    simp [brickScan, hcol, hhit1]
  refine ⟨?_, ?_, hfirst3, ?_, ?_, ?_⟩
  · simp [brickScan, hcol, hhit1]
  · simp [brickScan, hcol, hhit1]
  · rw [hfirst3]
    simp [brickScan, hcol, hhit2]
  · rw [hfirst3]
    simp [brickScan, hcol, hhit2]
  · rw [hfirst3]
    simp [brickScan, hcol, hhit2]

/-- C8 witness: a concrete two-hit brick overlapped by a concrete ball. -/
theorem brick_two_hit_scenario_witness :
    (brickScan ⟨95, 95, 10, 10⟩ 90 90 5 5 [⟨⟨100, 100, 50, 20⟩, 70, 2⟩]).scoreChange = 0 ∧
    (brickScan ⟨95, 95, 10, 10⟩ 90 90 5 5
      (brickScan ⟨95, 95, 10, 10⟩ 90 90 5 5 [⟨⟨100, 100, 50, 20⟩, 70, 2⟩]).bricks).scoreChange = 70 :=
  ⟨(brick_two_hit_scenario ⟨95, 95, 10, 10⟩ 90 90 5 5 ⟨⟨100, 100, 50, 20⟩, 70, 2⟩
      rfl (by decide)).1,
   (brick_two_hit_scenario ⟨95, 95, 10, 10⟩ 90 90 5 5 ⟨⟨100, 100, 50, 20⟩, 70, 2⟩
      rfl (by decide)).2.2.2.1⟩

/-- C1 counterexample: a bullet overlapping two enemies in the same tick is
scored against BOTH of them — both enemies are removed and both point values
are added — refuting the claim that at most one collision is processed per
projectile per tick. -/
theorem bullet_two_enemies_counterexample :
    collideRect ⟨100, 100, 10, 10⟩
      (⟨⟨95, 95, 40, 40⟩, 3, .basic, 1, 0, 10⟩ : Enemy).rect = true ∧
    collideRect ⟨100, 100, 10, 10⟩
      (⟨⟨105, 95, 40, 40⟩, 3, .basic, 1, 0, 15⟩ : Enemy).rect = true ∧
    (bulletEnemyScan ⟨100, 100, 10, 10⟩
      [⟨⟨95, 95, 40, 40⟩, 3, .basic, 1, 0, 10⟩,
       ⟨⟨105, 95, 40, 40⟩, 3, .basic, 1, 0, 15⟩]).1 = [] ∧
    (bulletEnemyScan ⟨100, 100, 10, 10⟩
      [⟨⟨95, 95, 40, 40⟩, 3, .basic, 1, 0, 10⟩,
       ⟨⟨105, 95, 40, 40⟩, 3, .basic, 1, 0, 15⟩]).2.1 = 25 ∧
    (bulletEnemyScan ⟨100, 100, 10, 10⟩
      [⟨⟨95, 95, 40, 40⟩, 3, .basic, 1, 0, 10⟩,
       ⟨⟨105, 95, 40, 40⟩, 3, .basic, 1, 0, 15⟩]).1.length ≠ 1 := by
  decide

/-- C1 (amended): the breakout ball processes at most one brick collision
per tick — the first overlapping brick in iteration order wins, so a
strength-1 brick at the head of the list is the only one hit and removed
even when a second brick also overlaps; the shooter bullet, however, is
scored against EVERY enemy it overlaps in the tick: the surviving enemies
are exactly the non-overlapped ones and the score delta is the sum of all
overlapped point values. -/
theorem collision_per_projectile_amended (ballRect : Rect) (pX pY : ℤ)
    (dx dy : ℚ) (bricks rest : List Brick) (b1 b2 : Brick)
    (bullet : Rect) (es : List Enemy)
    (h1 : b1.strength = 1) (hc1 : collideRect ballRect b1.rect = true) :
    (brickScan ballRect pX pY dx dy bricks).broken.length ≤ 1 ∧
    (brickScan ballRect pX pY dx dy (b1 :: b2 :: rest)).broken =
      [{ b1 with strength := 0 }] ∧
    (brickScan ballRect pX pY dx dy (b1 :: b2 :: rest)).bricks = b2 :: rest ∧
    (brickScan ballRect pX pY dx dy (b1 :: b2 :: rest)).scoreChange = b1.points ∧
    (bulletEnemyScan bullet es).1 =
      es.filter (fun e => !(collideRect bullet e.rect)) ∧
    (bulletEnemyScan bullet es).2.1 =
      ((es.filter (fun e => collideRect bullet e.rect)).map
        (fun e => e.points)).sum := by
  obtain ⟨br, bp, bs⟩ := b1
  have hbs : bs = 1 := h1
  subst hbs
  have hhit : (Brick.mk br bp 1).hit = (⟨br, bp, 0⟩, true, bp) := by
    simp [Brick.hit]
  refine ⟨brickScan_broken_le_one ballRect pX pY dx dy bricks, ?_, ?_, ?_,
    (bulletEnemyScan_filter bullet es).1, (bulletEnemyScan_filter bullet es).2⟩
  · simp [brickScan, hc1, hhit]
  · simp [brickScan, hc1, hhit]
  · simp [brickScan, hc1, hhit]

/-- C1 witness: the breakout half at a concrete ball lying exactly on the
intersection of two adjacent bricks — exactly the first brick is removed. -/
theorem collision_per_projectile_witness :
    (brickScan ⟨95, 95, 10, 10⟩ 90 90 5 5
      [⟨⟨50, 100, 50, 20⟩, 10, 1⟩, ⟨⟨100, 100, 50, 20⟩, 10, 1⟩]).broken =
      [⟨⟨50, 100, 50, 20⟩, 10, 0⟩] ∧
    (brickScan ⟨95, 95, 10, 10⟩ 90 90 5 5
      [⟨⟨50, 100, 50, 20⟩, 10, 1⟩, ⟨⟨100, 100, 50, 20⟩, 10, 1⟩]).bricks =
      [⟨⟨100, 100, 50, 20⟩, 10, 1⟩] :=
  ⟨(collision_per_projectile_amended ⟨95, 95, 10, 10⟩ 90 90 5 5 []
      [] ⟨⟨50, 100, 50, 20⟩, 10, 1⟩ ⟨⟨100, 100, 50, 20⟩, 10, 1⟩
      ⟨0, 0, 1, 1⟩ [] rfl (by decide)).2.1,
   (collision_per_projectile_amended ⟨95, 95, 10, 10⟩ 90 90 5 5 []
      [] ⟨⟨50, 100, 50, 20⟩, 10, 1⟩ ⟨⟨100, 100, 50, 20⟩, 10, 1⟩
      ⟨0, 0, 1, 1⟩ [] rfl (by decide)).2.2.1⟩

/-- C3 counterexample: the breakout ball leaves `Ball.update` with
`dx = 10.005`, exceeding its `max_speed` of 10, because the per-tick growth
factor is applied after the clamp; the pong ball leaves a paddle collision
with `|dx| = 15.4 > 15`, because the cap test happens before the 10%
speed-up. -/
theorem speed_cap_exceeded_counterexample :
    (Ball.update 800 ⟨⟨400, 300, 10, 10⟩, 10, 0, 1 / 20, 10, false⟩
      ⟨380, 560, 40, 15⟩ [] 0 0).ball.dx = 2001 / 200 ∧
    (⟨⟨400, 300, 10, 10⟩, 10, 0, 1 / 20, 10, false⟩ : Ball).max_speed <
      (Ball.update 800 ⟨⟨400, 300, 10, 10⟩, 10, 0, 1 / 20, 10, false⟩
        ⟨380, 560, 40, 15⟩ [] 0 0).ball.dx ∧
    |(handle_paddle_collision ⟨⟨100, 300, 15, 15⟩, -14, 5⟩
        ⟨30, 250, 10, 90⟩ 5).dx| = 77 / 5 ∧
    (15 : ℚ) <
      |(handle_paddle_collision ⟨⟨100, 300, 15, 15⟩, -14, 5⟩
        ⟨30, 250, 10, 90⟩ 5).dx| := by
  have hb : (Ball.update 800 ⟨⟨400, 300, 10, 10⟩, 10, 0, 1 / 20, 10, false⟩
      ⟨380, 560, 40, 15⟩ [] 0 0).ball.dx = 2001 / 200 := by
    norm_num [Ball.update, pyTrunc, pyMax, pyMin, brickScan, collideRect,
      Rect.left, Rect.right, Rect.top, Rect.bottom, Rect.centerx, paddleBounce,
      Rat.num_ofNat, Rat.den_ofNat, Int.tdiv]
  have hp : (handle_paddle_collision ⟨⟨100, 300, 15, 15⟩, -14, 5⟩
      ⟨30, 250, 10, 90⟩ 5).dx = 77 / 5 := by
    norm_num [handle_paddle_collision, Rect.centery, abs]
  have habs2 : |(handle_paddle_collision ⟨⟨100, 300, 15, 15⟩, -14, 5⟩
      ⟨30, 250, 10, 90⟩ 5).dx| = 77 / 5 := by
    rw [hp]
    norm_num [abs_of_pos]
  refine ⟨hb, ?_, habs2, ?_⟩
  · rw [hb]
    show (10 : ℚ) < 2001 / 200
    norm_num
  · rw [habs2]
    norm_num

/-- C3 (amended): after a breakout `Ball.update` of a detached ball with the
stock `speed_increase = 0.05`, both velocity components are bounded by
`max_speed * (1 + 0.05/100)` — the clamp holds before, not after, the
growth factor; after a pong paddle collision, `|dx|` stays below
`15 * 1.1 = 16.5` when it was below 15, and is unchanged otherwise. -/
theorem velocity_cap_amended (screenW : ℤ) (ball : Ball) (paddle : Rect)
    (bricks : List Brick) (nY nX : ℚ) (pball : PongBall) (ppad : Rect)
    (bsy : ℚ) (hM : 0 ≤ ball.max_speed) (hsi : ball.speed_increase = 1 / 20)
    (hatt : ball.attached = false) :
    |(Ball.update screenW ball paddle bricks nY nX).ball.dx| ≤
      ball.max_speed * (2001 / 2000) ∧
    |(Ball.update screenW ball paddle bricks nY nX).ball.dy| ≤
      ball.max_speed * (2001 / 2000) ∧
    (|pball.dx| < 15 →
      |(handle_paddle_collision pball ppad bsy).dx| < 33 / 2) ∧
    (15 ≤ |pball.dx| →
      |(handle_paddle_collision pball ppad bsy).dx| = |pball.dx|) := by
  have habs : ∀ a : ℚ, |pyMax (pyMin a ball.max_speed) (-ball.max_speed)| ≤ ball.max_speed := by
    intro a
    unfold pyMax pyMin
    split_ifs <;> rw [abs_le] <;> constructor <;> linarith
  have hgrow : |1 + ball.speed_increase / 100| = 2001 / 2000 := by
    rw [hsi]
    norm_num
  refine ⟨?_, ?_, ?_, ?_⟩
  · simp only [Ball.update, hatt, Bool.false_eq_true, if_false]
    rw [abs_mul, (brickScan_abs _ _ _ _ _ _).1, hgrow]
    exact mul_le_mul_of_nonneg_right (habs _) (by norm_num)
  · simp only [Ball.update, hatt, Bool.false_eq_true, if_false]
    rw [abs_mul, (brickScan_abs _ _ _ _ _ _).2, hgrow]
    exact mul_le_mul_of_nonneg_right (habs _) (by norm_num)
  · intro hlt
    simp only [handle_paddle_collision, abs_neg]
    rw [if_pos hlt, abs_mul, abs_neg]
    have h1 : |(11 : ℚ) / 10| = 11 / 10 := by norm_num
    rw [h1]
    calc |pball.dx| * (11 / 10) < 15 * (11 / 10) := by
          exact mul_lt_mul_of_pos_right hlt (by norm_num)
    _ = 33 / 2 := by norm_num
  · intro hge
    simp only [handle_paddle_collision, abs_neg]
    rw [if_neg (by exact not_lt.mpr hge), abs_neg]

/-- C3 witness: the bounds at a concrete detached ball and a concrete pong
collision with incoming `|dx| = 14`. -/
theorem velocity_cap_witness :
    |(Ball.update 800 ⟨⟨400, 300, 10, 10⟩, 5, -5, 1 / 20, 10, false⟩
      ⟨380, 560, 40, 15⟩ [] 0 0).ball.dx| ≤ 10 * (2001 / 2000) ∧
    |(handle_paddle_collision ⟨⟨100, 300, 15, 15⟩, -14, 5⟩
        ⟨30, 250, 10, 90⟩ 5).dx| < 33 / 2 :=
  ⟨(velocity_cap_amended 800 ⟨⟨400, 300, 10, 10⟩, 5, -5, 1 / 20, 10, false⟩
      ⟨380, 560, 40, 15⟩ [] 0 0 ⟨⟨100, 300, 15, 15⟩, -14, 5⟩
      ⟨30, 250, 10, 90⟩ 5 (by norm_num) rfl rfl).1,
   (velocity_cap_amended 800 ⟨⟨400, 300, 10, 10⟩, 5, -5, 1 / 20, 10, false⟩
      ⟨380, 560, 40, 15⟩ [] 0 0 ⟨⟨100, 300, 15, 15⟩, -14, 5⟩
      ⟨30, 250, 10, 90⟩ 5 (by norm_num) rfl rfl).2.2.1 (by norm_num)⟩

/-- C9: the session score stays non-negative: the enemy-escape miss penalty
(one point per escaped enemy, applied only while the score is positive)
keeps a non-negative score non-negative and never increases it, bullet hits
add only non-negative point values, the wave bonus never decreases the
score, and snake growth adds exactly 10 points. -/
theorem score_nonneg_invariant (screenW screenH : ℤ) (es : List Enemy)
    (s : ℤ) (bullet : Rect) (wave : ℤ) (snake : SnakeState)
    (hs : 0 ≤ s) (hpts : ∀ e ∈ es, 0 ≤ e.points) (hw : 0 ≤ wave) :
    0 ≤ (enemyEscapePhase screenW screenH es s).2 ∧
    (enemyEscapePhase screenW screenH es s).2 ≤ s ∧
    0 ≤ (bulletEnemyScan bullet es).2.1 ∧
    s ≤ waveBonus wave s ∧
    snake.grow.score = snake.score + 10 := by
  refine ⟨enemyEscapePhase_nonneg screenW screenH es s hs,
    enemyEscapePhase_le screenW screenH es s,
    bulletEnemyScan_nonneg bullet es hpts, ?_, rfl⟩
  unfold waveBonus
  have h50 : 0 ≤ wave * 50 := by positivity
  linarith

/-- C9 witness: one enemy already past the bottom of a 600-pixel screen,
score 0: the penalty leaves the score at 0 and the enemy removed. -/
theorem score_nonneg_invariant_witness :
    0 ≤ (enemyEscapePhase 800 600 [⟨⟨100, 700, 40, 40⟩, 3, .basic, 1, 0, 10⟩] 0).2 ∧
    (enemyEscapePhase 800 600 [⟨⟨100, 700, 40, 40⟩, 3, .basic, 1, 0, 10⟩] 0).2 ≤ 0 ∧
    (⟨3, 0⟩ : SnakeState).grow.score = (0 : ℤ) + 10 :=
  ⟨(score_nonneg_invariant 800 600 [⟨⟨100, 700, 40, 40⟩, 3, .basic, 1, 0, 10⟩] 0
      ⟨0, 0, 6, 6⟩ 1 ⟨3, 0⟩ (by norm_num) (by decide) (by norm_num)).1,
   (score_nonneg_invariant 800 600 [⟨⟨100, 700, 40, 40⟩, 3, .basic, 1, 0, 10⟩] 0
      ⟨0, 0, 6, 6⟩ 1 ⟨3, 0⟩ (by norm_num) (by decide) (by norm_num)).2.1,
   (score_nonneg_invariant 800 600 [⟨⟨100, 700, 40, 40⟩, 3, .basic, 1, 0, 10⟩] 0
      ⟨0, 0, 6, 6⟩ 1 ⟨3, 0⟩ (by norm_num) (by decide) (by norm_num)).2.2.2.2⟩

end Arcade
